import Mathlib

/-!
Shallow embedding of the random comic/anime cover generator.

The embedding covers the pure validity filters and normalizers of
server.py, the year-extraction logic and transport retry loops of
comic_client.py, anime_client.py and random_comic.py, and the bounded
sampling loops of the /random-comic and /random-anime handlers.

Python dictionaries are modelled as structures of Option fields: a field
value of none stands for a key that is absent or maps to None; Python
truthiness of optional strings and ints is made explicit.  Network
attempts are modelled as a function from attempt index to an attempt
outcome (HTTP response with status and parsed body, timeout, or generic
request failure); sleeps performed between retries are collected in a
list.
-/

namespace CoverGen

/-- Python truthiness of a str-or-None value: None and the empty string
are falsy. -/
def strTruthy : Option String → Bool
  | none => false
  | some s => s != ""

/-- Python truthiness of an int-or-None value: None and 0 are falsy. -/
def intTruthy : Option Int → Bool
  | none => false
  | some n => n != 0

/-- Python `x or y` where x is a str-or-None value and y a string:
returns x when truthy, else y. -/
def pyStrOr : Option String → String → String
  | none, b => b
  | some s, b => if s = "" then b else s

/-- Value of a nonempty all-digit character list, none when some
character is not a digit. -/
def digitsVal (cs : List Char) : Option Nat :=
  if cs = [] then none
  else cs.foldl
    (fun acc c =>
      match acc with
      | none => none
      | some n => if c.isDigit then some (n * 10 + (c.toNat - 48)) else none)
    (some 0)

/-- Python int(s) on a plain decimal literal: optional sign followed by
digits; none models the ValueError branch. -/
def pyInt? (s : String) : Option Int :=
  match s.data with
  | [] => none
  | c :: cs =>
    if c = '-' then (digitsVal cs).map (fun n => -(n : Int))
    else if c = '+' then (digitsVal cs).map (fun n => (n : Int))
    else (digitsVal (c :: cs)).map (fun n => (n : Int))

/-- The leading segment of s.split('-') — the characters before the
first dash. -/
def headSegment (s : String) : String :=
  ⟨s.data.takeWhile (fun c => c != '-')⟩

/-- Year extraction used by comic_client.py (cover_date) and
anime_client.py (aired.from): guarded by a truthiness check on the date
string, then int(s.split('-')[0]) with parse failures mapped to an
absent year. -/
def yearFromDate : Option String → Option Int
  | none => none
  | some s => if s = "" then none else pyInt? (headSegment s)

namespace CV

/-- The image sub-dictionary of a Comic Vine issue. -/
structure Image where
  medium_url : Option String
  small_url : Option String
  original_url : Option String
deriving DecidableEq

/-- A truthy volume sub-dictionary; the name field is the lookup of the
name key. -/
structure Volume where
  name : Option String
deriving DecidableEq

/-- A truthy Comic Vine issue record.  A falsy issue (None or an empty
dictionary) is modelled as none at use sites.  volume = none models a
falsy volume value (key absent, None or empty dictionary); image = none
models a falsy image value. -/
structure Comic where
  name : Option String
  issue_number : Option String
  volume : Option Volume
  image : Option Image
  cover_date : Option String
  site_detail_url : Option String
deriving DecidableEq

end CV

namespace JK

/-- The images.jpg sub-dictionary of a Jikan anime record. -/
structure Jpg where
  large_image_url : Option String
  image_url : Option String
deriving DecidableEq

/-- The images sub-dictionary; jpg = none models an absent jpg key. -/
structure Images where
  jpg : Option Jpg
deriving DecidableEq

/-- The aired sub-dictionary; fromDate models the lookup of the from
key. -/
structure Aired where
  fromDate : Option String
deriving DecidableEq

/-- A truthy Jikan anime record; images = none and aired = none model
falsy values of those keys. -/
structure Anime where
  title_english : Option String
  title : Option String
  images : Option Images
  url : Option String
  year : Option Int
  aired : Option Aired
deriving DecidableEq

end JK

/-- server.py is_valid_comic: requires a truthy comic, a truthy image
container, and at least one truthy candidate URL among medium, small
and original. -/
def is_valid_comic : Option CV.Comic → Bool
  | none => false
  | some c =>
    match c.image with
    | none => false
    | some img =>
      strTruthy img.medium_url || strTruthy img.small_url || strTruthy img.original_url

/-- server.py is_valid_anime: requires a truthy anime, a truthy images
container, and a truthy large_image_url or image_url under jpg. -/
def is_valid_anime : Option JK.Anime → Bool
  | none => false
  | some a =>
    match a.images with
    | none => false
    | some imgs =>
      let jpg := imgs.jpg.getD ⟨none, none⟩
      strTruthy jpg.large_image_url || strTruthy jpg.image_url

/-- One entry of the urls list of a normalized response. -/
structure DetailUrl where
  type : String
  url : String
deriving DecidableEq

/-- The normalized media payload: title, cover URL and link list. -/
structure MediaData where
  title : String
  coverUrl : String
  urls : List DetailUrl
deriving DecidableEq

/-- The JSON response of the handlers: the payload under the comic key,
plus the year when truthy. -/
structure ApiResponse where
  comic : MediaData
  year : Option Int
deriving DecidableEq

/-- server.py: volume.get('name', 'Unknown Series') if volume else
'Unknown Series'. -/
def volumeName : Option CV.Volume → String
  | none => "Unknown Series"
  | some v => v.name.getD "Unknown Series"

/-- The title computation of format_comic_response: Series #Issue,
optionally followed by the issue name. -/
def comicTitle (c : CV.Comic) : String :=
  if c.issue_number.getD "" != "" then
    if c.name.getD "" != "" then
      volumeName c.volume ++ " #" ++ c.issue_number.getD "" ++ " - " ++ c.name.getD ""
    else
      volumeName c.volume ++ " #" ++ c.issue_number.getD ""
  else
    if c.name.getD "" != "" then
      volumeName c.volume ++ " - " ++ c.name.getD ""
    else
      volumeName c.volume

/-- The title computation of format_anime_response: title_english or
title or the Unknown Anime placeholder. -/
def animeTitle (a : JK.Anime) : String :=
  pyStrOr a.title_english (pyStrOr a.title "Unknown Anime")

/-- server.py format_comic_response: builds the title from volume name,
issue number and issue name, picks the first truthy image URL among
medium, small, original, and attaches the detail link and the year when
truthy. -/
def format_comic_response (c : CV.Comic) (year : Option Int) : ApiResponse :=
  let title := comicTitle c
  let img := c.image.getD ⟨none, none, none⟩
  let cover_url := pyStrOr img.medium_url (pyStrOr img.small_url (pyStrOr img.original_url ""))
  let detail_url := c.site_detail_url.getD ""
  let urls := if detail_url != "" then [⟨"detail", detail_url⟩] else []
  { comic := ⟨title, cover_url, urls⟩
    year := if intTruthy year then year else none }

/-- server.py format_anime_response: title prefers title_english, then
title, then the fixed Unknown Anime placeholder; cover URL is the first
truthy of large_image_url and image_url; attaches the MAL link and the
year when truthy. -/
def format_anime_response (a : JK.Anime) (year : Option Int) : ApiResponse :=
  let title := animeTitle a
  let imgs := a.images.getD ⟨none⟩
  let jpg := imgs.jpg.getD ⟨none, none⟩
  let cover_url := pyStrOr jpg.large_image_url (pyStrOr jpg.image_url "")
  let mal_url := a.url.getD ""
  let urls := if mal_url != "" then [⟨"detail", mal_url⟩] else []
  { comic := ⟨title, cover_url, urls⟩
    year := if intTruthy year then year else none }

/-- One transport attempt as seen by a client: an HTTP response with a
status code and an already-parsed body, a timeout, or a generic request
failure (connection error). -/
inductive Attempt (β : Type) where
  | response (status : Nat) (body : β)
  | timeout
  | netError
deriving DecidableEq

/-- The value a client call produces: either the (year, item) pair the
Python function returns (item = none models the no-results case), or a
raised client exception with its message. -/
inductive FetchResult (α : Type) where
  | found (year : Option Int) (item : Option α)
  | apiError (msg : String)
deriving DecidableEq

/-- The observable behaviour of one client call: its result, the number
of HTTP attempts made, and the sleeps (in seconds) performed between
attempts, in order. -/
structure Run (α : Type) where
  result : FetchResult α
  attempts : Nat
  sleeps : List Nat
deriving DecidableEq

/-- comic_client.py MAX_RETRIES. -/
def CV.MAX_RETRIES : Nat := 3

/-- comic_client.py RETRY_DELAY (seconds). -/
def CV.RETRY_DELAY : Nat := 1

/-- anime_client.py MAX_RETRIES. -/
def JK.MAX_RETRIES : Nat := 3

/-- anime_client.py RETRY_DELAY (seconds). -/
def JK.RETRY_DELAY : Nat := 2

/-- random_comic.py MAX_RETRIES. -/
def Marvel.MAX_RETRIES : Nat := 3

/-- random_comic.py RETRY_DELAY (seconds). -/
def Marvel.RETRY_DELAY : Nat := 1

/-- The parsed JSON envelope of a Comic Vine response: the error status
field and the results array. -/
structure CVBody where
  error : Option String
  results : List CV.Comic
deriving DecidableEq

/-- Handling of an HTTP response by ComicVineClient.get_random_comic:
any HTTP error status is raised immediately (420 with the rate-limit
message); on HTTP success the envelope must carry error OK, otherwise
the client raises; an empty results array yields (None, None), else the
year is parsed from cover_date. -/
def CV.handleResponse (status : Nat) (body : CVBody) (made : Nat) (sleeps : List Nat) :
    Run CV.Comic :=
  if 400 ≤ status then
    if status = 420 then
      ⟨.apiError "Rate limit exceeded. Please wait before making more requests.",
        made + 1, sleeps.reverse⟩
    else
      ⟨.apiError "Comic Vine API returned error", made + 1, sleeps.reverse⟩
  else
    if body.error = some "OK" then
      match body.results with
      | [] => ⟨.found none none, made + 1, sleeps.reverse⟩
      | c :: _ => ⟨.found (yearFromDate c.cover_date) (some c), made + 1, sleeps.reverse⟩
    else
      ⟨.apiError "API returned error", made + 1, sleeps.reverse⟩

/-- The retry loop of ComicVineClient.get_random_comic, by remaining
fuel.  made is the number of attempts already made (also the index of
the current attempt); sleeps accumulates delays in reverse.  A timeout
or generic request failure is retried with RETRY_DELAY while budget
remains (fuel at least 2) and raised on the final attempt. -/
def CV.go (resps : Nat → Attempt CVBody) : Nat → Nat → List Nat → Run CV.Comic
  | 0, made, sleeps =>
    ⟨.apiError "Unexpected error: maximum retries reached", made, sleeps.reverse⟩
  | 1, made, sleeps =>
    match resps made with
    | .timeout => ⟨.apiError "Request timed out after multiple attempts", made + 1, sleeps.reverse⟩
    | .netError => ⟨.apiError "Failed to connect to Comic Vine API", made + 1, sleeps.reverse⟩
    | .response status body => CV.handleResponse status body made sleeps
  | fuel + 2, made, sleeps =>
    match resps made with
    | .timeout => CV.go resps (fuel + 1) (made + 1) (CV.RETRY_DELAY :: sleeps)
    | .netError => CV.go resps (fuel + 1) (made + 1) (CV.RETRY_DELAY :: sleeps)
    | .response status body => CV.handleResponse status body made sleeps

/-- ComicVineClient.get_random_comic as a function of the attempt
outcomes. -/
def CV.get_random_comic (resps : Nat → Attempt CVBody) : Run CV.Comic :=
  CV.go resps CV.MAX_RETRIES 0 []

/-- The parsed JSON envelope of a Jikan response: the anime record under
the data key (none models an absent or falsy data value). -/
structure JikanBody where
  data : Option JK.Anime
deriving DecidableEq

/-- Year selection of JikanClient.get_random_anime: the direct year
field when truthy, else parsed from aired.from, with parse failures
leaving the year unchanged. -/
def JK.pickYear (a : JK.Anime) : Option Int :=
  if intTruthy a.year then a.year
  else
    match a.aired with
    | none => a.year
    | some ar =>
      match ar.fromDate with
      | none => a.year
      | some fd =>
        if fd = "" then a.year
        else
          match pyInt? (headSegment fd) with
          | some v => some v
          | none => a.year

/-- Handling of an HTTP success body by JikanClient.get_random_anime:
an absent data value yields (None, None), else the year is selected and
the anime returned. -/
def JK.handleSuccess (body : JikanBody) (made : Nat) (sleeps : List Nat) : Run JK.Anime :=
  match body.data with
  | none => ⟨.found none none, made + 1, sleeps.reverse⟩
  | some a => ⟨.found (JK.pickYear a) (some a), made + 1, sleeps.reverse⟩

/-- The retry loop of JikanClient.get_random_anime, by remaining fuel.
A timeout or generic request failure is retried with RETRY_DELAY while
budget remains; HTTP 429 is retried with RETRY_DELAY * 2 while budget
remains; any other HTTP error status is raised immediately. -/
def JK.go (resps : Nat → Attempt JikanBody) : Nat → Nat → List Nat → Run JK.Anime
  | 0, made, sleeps =>
    ⟨.apiError "Unexpected error: maximum retries reached", made, sleeps.reverse⟩
  | 1, made, sleeps =>
    match resps made with
    | .timeout => ⟨.apiError "Request timed out after multiple attempts", made + 1, sleeps.reverse⟩
    | .netError => ⟨.apiError "Failed to connect to Jikan API", made + 1, sleeps.reverse⟩
    | .response status body =>
      if 400 ≤ status then
        if status = 429 then
          ⟨.apiError "Rate limit exceeded. Please wait before making more requests.",
            made + 1, sleeps.reverse⟩
        else
          ⟨.apiError "Jikan API returned error", made + 1, sleeps.reverse⟩
      else
        JK.handleSuccess body made sleeps
  | fuel + 2, made, sleeps =>
    match resps made with
    | .timeout => JK.go resps (fuel + 1) (made + 1) (JK.RETRY_DELAY :: sleeps)
    | .netError => JK.go resps (fuel + 1) (made + 1) (JK.RETRY_DELAY :: sleeps)
    | .response status body =>
      if 400 ≤ status then
        if status = 429 then
          JK.go resps (fuel + 1) (made + 1) (JK.RETRY_DELAY * 2 :: sleeps)
        else
          ⟨.apiError "Jikan API returned error", made + 1, sleeps.reverse⟩
      else
        JK.handleSuccess body made sleeps

/-- JikanClient.get_random_anime as a function of the attempt
outcomes. -/
def JK.get_random_anime (resps : Nat → Attempt JikanBody) : Run JK.Anime :=
  JK.go resps JK.MAX_RETRIES 0 []

/-- A Marvel comic record; only the fields the repository reads are
modelled. -/
structure Marvel.Comic where
  title : Option String
deriving DecidableEq

/-- The parsed JSON envelope of a Marvel response: the provider-reported
status field (which MarvelClient never reads) and data.results. -/
structure MarvelBody where
  status : Option String
  results : List Marvel.Comic
deriving DecidableEq

/-- The retry loop of MarvelClient.get_random_comic (random_comic.py),
by remaining fuel.  random_year is the year drawn before the loop.  A
timeout or generic request failure is retried with RETRY_DELAY; any HTTP
error status is raised immediately; on HTTP success the first result (or
None) is returned with the drawn year — no envelope status check is
performed. -/
def Marvel.go (resps : Nat → Attempt MarvelBody) (random_year : Int) :
    Nat → Nat → List Nat → Run Marvel.Comic
  | 0, made, sleeps =>
    ⟨.apiError "Unexpected error: maximum retries reached", made, sleeps.reverse⟩
  | 1, made, sleeps =>
    match resps made with
    | .timeout => ⟨.apiError "Request timed out after multiple attempts", made + 1, sleeps.reverse⟩
    | .netError => ⟨.apiError "Failed to connect to Marvel API", made + 1, sleeps.reverse⟩
    | .response status body =>
      if 400 ≤ status then
        ⟨.apiError "Marvel API returned error", made + 1, sleeps.reverse⟩
      else
        ⟨.found (some random_year) body.results.head?, made + 1, sleeps.reverse⟩
  | fuel + 2, made, sleeps =>
    match resps made with
    | .timeout => Marvel.go resps random_year (fuel + 1) (made + 1) (Marvel.RETRY_DELAY :: sleeps)
    | .netError => Marvel.go resps random_year (fuel + 1) (made + 1) (Marvel.RETRY_DELAY :: sleeps)
    | .response status body =>
      if 400 ≤ status then
        ⟨.apiError "Marvel API returned error", made + 1, sleeps.reverse⟩
      else
        ⟨.found (some random_year) body.results.head?, made + 1, sleeps.reverse⟩

/-- MarvelClient.get_random_comic as a function of the attempt outcomes
and the drawn year. -/
def Marvel.get_random_comic (resps : Nat → Attempt MarvelBody) (random_year : Int) :
    Run Marvel.Comic :=
  Marvel.go resps random_year Marvel.MAX_RETRIES 0 []

/-- random_comic.py _generate_auth_params.  The hashlib md5 hex digest
of the standard library is modelled as an abstract digest function
md5hex; the function applies it to the concatenation
ts + private_key + public_key. -/
structure AuthParams where
  ts : String
  apikey : String
  hash : String
deriving DecidableEq

/-- random_comic.py _generate_auth_params, parameterized over the md5
hex digest primitive and the current timestamp string. -/
def generate_auth_params (md5hex : String → String)
    (public_key private_key ts : String) : AuthParams :=
  { ts := ts, apikey := public_key, hash := md5hex (ts ++ private_key ++ public_key) }

/-- server.py MAX_RETRY_ATTEMPTS: the sampling budget of both
handlers. -/
def MAX_RETRY_ATTEMPTS : Nat := 10

/-- The outcome of a handler invocation: a 200 response with the
formatted payload, the 404 could-not-find response, or the 500 response
produced by the except branch. -/
inductive ServerOutcome where
  | ok (resp : ApiResponse)
  | notFound
  | serverError
deriving DecidableEq

/-- A handler run: its outcome and how many client calls it made. -/
structure ServerRun where
  outcome : ServerOutcome
  calls : Nat
deriving DecidableEq

/-- The sampling loop of the /random-comic handler, by remaining fuel;
made counts client calls already made.  A raised client exception lands
in the except branch (500); a valid comic is formatted and returned
(200); an invalid or absent comic continues the loop; an exhausted
budget yields 404. -/
def randomComicGo (fetches : Nat → FetchResult CV.Comic) : Nat → Nat → ServerRun
  | 0, made => ⟨.notFound, made⟩
  | fuel + 1, made =>
    match fetches made with
    | .apiError _ => ⟨.serverError, made + 1⟩
    | .found y (some c) =>
      if is_valid_comic (some c) then ⟨.ok (format_comic_response c y), made + 1⟩
      else randomComicGo fetches fuel (made + 1)
    | .found _ none => randomComicGo fetches fuel (made + 1)

/-- server.py random_comic handler as a function of the client call
results. -/
def random_comic (fetches : Nat → FetchResult CV.Comic) : ServerRun :=
  randomComicGo fetches MAX_RETRY_ATTEMPTS 0

/-- The sampling loop of the /random-anime handler, by remaining
fuel. -/
def randomAnimeGo (fetches : Nat → FetchResult JK.Anime) : Nat → Nat → ServerRun
  | 0, made => ⟨.notFound, made⟩
  | fuel + 1, made =>
    match fetches made with
    | .apiError _ => ⟨.serverError, made + 1⟩
    | .found y (some a) =>
      if is_valid_anime (some a) then ⟨.ok (format_anime_response a y), made + 1⟩
      else randomAnimeGo fetches fuel (made + 1)
    | .found _ none => randomAnimeGo fetches fuel (made + 1)

/-- server.py random_anime handler as a function of the client call
results. -/
def random_anime (fetches : Nat → FetchResult JK.Anime) : ServerRun :=
  randomAnimeGo fetches MAX_RETRY_ATTEMPTS 0

/-! ### Helper lemmas -/

/-- One-step unfolding of the Comic Vine retry loop on a non-final
attempt. -/
theorem cvGoStep2 (resps : Nat → Attempt CVBody) (fuel made : Nat) (sleeps : List Nat) :
    CV.go resps (fuel + 2) made sleeps =
      match resps made with
      | .timeout => CV.go resps (fuel + 1) (made + 1) (CV.RETRY_DELAY :: sleeps)
      | .netError => CV.go resps (fuel + 1) (made + 1) (CV.RETRY_DELAY :: sleeps)
      | .response status body => CV.handleResponse status body made sleeps := rfl

/-- One-step unfolding of the Comic Vine retry loop on the final
attempt. -/
theorem cvGoStep1 (resps : Nat → Attempt CVBody) (made : Nat) (sleeps : List Nat) :
    CV.go resps 1 made sleeps =
      match resps made with
      | .timeout =>
        ⟨.apiError "Request timed out after multiple attempts", made + 1, sleeps.reverse⟩
      | .netError => ⟨.apiError "Failed to connect to Comic Vine API", made + 1, sleeps.reverse⟩
      | .response status body => CV.handleResponse status body made sleeps := rfl

/-- One-step unfolding of the Jikan retry loop on a non-final
attempt. -/
theorem jkGoStep2 (resps : Nat → Attempt JikanBody) (fuel made : Nat) (sleeps : List Nat) :
    JK.go resps (fuel + 2) made sleeps =
      match resps made with
      | .timeout => JK.go resps (fuel + 1) (made + 1) (JK.RETRY_DELAY :: sleeps)
      | .netError => JK.go resps (fuel + 1) (made + 1) (JK.RETRY_DELAY :: sleeps)
      | .response status body =>
        if 400 ≤ status then
          if status = 429 then
            JK.go resps (fuel + 1) (made + 1) (JK.RETRY_DELAY * 2 :: sleeps)
          else
            ⟨.apiError "Jikan API returned error", made + 1, sleeps.reverse⟩
        else
          JK.handleSuccess body made sleeps := rfl

/-- One-step unfolding of the Jikan retry loop on the final attempt. -/
theorem jkGoStep1 (resps : Nat → Attempt JikanBody) (made : Nat) (sleeps : List Nat) :
    JK.go resps 1 made sleeps =
      match resps made with
      | .timeout =>
        ⟨.apiError "Request timed out after multiple attempts", made + 1, sleeps.reverse⟩
      | .netError => ⟨.apiError "Failed to connect to Jikan API", made + 1, sleeps.reverse⟩
      | .response status body =>
        if 400 ≤ status then
          if status = 429 then
            ⟨.apiError "Rate limit exceeded. Please wait before making more requests.",
              made + 1, sleeps.reverse⟩
          else
            ⟨.apiError "Jikan API returned error", made + 1, sleeps.reverse⟩
        else
          JK.handleSuccess body made sleeps := rfl

/-- One-step unfolding of the Marvel retry loop on a non-final
attempt. -/
theorem marvelGoStep2 (resps : Nat → Attempt MarvelBody) (ry : Int) (fuel made : Nat)
    (sleeps : List Nat) :
    Marvel.go resps ry (fuel + 2) made sleeps =
      match resps made with
      | .timeout => Marvel.go resps ry (fuel + 1) (made + 1) (Marvel.RETRY_DELAY :: sleeps)
      | .netError => Marvel.go resps ry (fuel + 1) (made + 1) (Marvel.RETRY_DELAY :: sleeps)
      | .response status body =>
        if 400 ≤ status then
          ⟨.apiError "Marvel API returned error", made + 1, sleeps.reverse⟩
        else
          ⟨.found (some ry) body.results.head?, made + 1, sleeps.reverse⟩ := rfl

/-- One-step unfolding of the Marvel retry loop on the final
attempt. -/
theorem marvelGoStep1 (resps : Nat → Attempt MarvelBody) (ry : Int) (made : Nat)
    (sleeps : List Nat) :
    Marvel.go resps ry 1 made sleeps =
      match resps made with
      | .timeout =>
        ⟨.apiError "Request timed out after multiple attempts", made + 1, sleeps.reverse⟩
      | .netError => ⟨.apiError "Failed to connect to Marvel API", made + 1, sleeps.reverse⟩
      | .response status body =>
        if 400 ≤ status then
          ⟨.apiError "Marvel API returned error", made + 1, sleeps.reverse⟩
        else
          ⟨.found (some ry) body.results.head?, made + 1, sleeps.reverse⟩ := rfl

/-- The chained Python or over optional strings is empty exactly when
the left operand is falsy and the fallback is empty. -/
theorem pyStrOr_eq_empty_iff (a : Option String) (b : String) :
    pyStrOr a b = "" ↔ strTruthy a = false ∧ b = "" := by
  cases a with
  | none => simp [pyStrOr, strTruthy]
  | some s =>
    by_cases hs : s = ""
    · subst hs; simp [pyStrOr, strTruthy]
    · simp [pyStrOr, strTruthy, hs]

/-- Appending to a nonempty string keeps it nonempty. -/
theorem append_ne_empty_left (s t : String) (h : s ≠ "") : s ++ t ≠ "" := by
  intro hc
  apply h
  have hl : (s ++ t).length = 0 := by rw [hc]; rfl
  rw [String.length_append] at hl
  have hs : s.length = 0 := by omega
  cases s with
  | mk data =>
    cases data with
    | nil => rfl
    | cons c cs => simp [String.length] at hs

/-- Appending a nonempty string yields a nonempty string. -/
theorem append_ne_empty_right (s t : String) (h : t ≠ "") : s ++ t ≠ "" := by
  intro hc
  apply h
  have hl : (s ++ t).length = 0 := by rw [hc]; rfl
  rw [String.length_append] at hl
  have hs : t.length = 0 := by omega
  cases t with
  | mk data =>
    cases data with
    | nil => rfl
    | cons c cs => simp [String.length] at hs

/-! ### Claim theorems -/

/-- C1: every RawItem accepted by the validity filter normalizes to a
non-empty coverUrl — for the comic pipeline (is_valid_comic versus
format_comic_response) and the anime pipeline (is_valid_anime versus
format_anime_response), since both probe the same ordered candidate
image fields. -/
theorem c1_filter_normalizer_coverUrl :
    (∀ (c : CV.Comic) (y : Option Int), is_valid_comic (some c) = true →
      (format_comic_response c y).comic.coverUrl ≠ "") ∧
    (∀ (a : JK.Anime) (y : Option Int), is_valid_anime (some a) = true →
      (format_anime_response a y).comic.coverUrl ≠ "") := by
  constructor
  · intro c y hv hc
    cases himg : c.image with
    | none => simp [is_valid_comic, himg] at hv
    | some img =>
      simp only [is_valid_comic, himg] at hv
      simp only [format_comic_response, himg, Option.getD_some] at hc
      rw [pyStrOr_eq_empty_iff, pyStrOr_eq_empty_iff, pyStrOr_eq_empty_iff] at hc
      obtain ⟨h1, h2, h3, -⟩ := hc
      rw [h1, h2, h3] at hv
      simp at hv
  · intro a y hv hc
    cases himgs : a.images with
    | none => simp [is_valid_anime, himgs] at hv
    | some imgs =>
      simp only [is_valid_anime, himgs, Option.getD_some] at hv
      simp only [format_anime_response, himgs, Option.getD_some] at hc
      rw [pyStrOr_eq_empty_iff, pyStrOr_eq_empty_iff] at hc
      obtain ⟨h1, h2, -⟩ := hc
      rw [h1, h2] at hv
      simp at hv

/-- A concrete comic with only a small_url, matching the end-to-end
scenario of the spec. -/
def smallUrlComic : CV.Comic :=
  ⟨none, none, none, some ⟨some "", some "http://x/y.jpg", none⟩, none, none⟩

/-- A concrete anime with only an image_url. -/
def imageUrlAnime : JK.Anime :=
  ⟨none, none, some ⟨some ⟨none, some "http://a/b.jpg"⟩⟩, none, none, none⟩

/-- Witness for C1: a comic with medium_url empty and small_url set, and
an anime with only image_url set, both pass their filter and normalize
to a non-empty coverUrl. -/
theorem c1_filter_normalizer_coverUrl_witness :
    (is_valid_comic (some smallUrlComic) = true ∧
      (format_comic_response smallUrlComic none).comic.coverUrl ≠ "") ∧
    (is_valid_anime (some imageUrlAnime) = true ∧
      (format_anime_response imageUrlAnime none).comic.coverUrl ≠ "") :=
  ⟨⟨by decide, c1_filter_normalizer_coverUrl.1 smallUrlComic none (by decide)⟩,
   ⟨by decide, c1_filter_normalizer_coverUrl.2 imageUrlAnime none (by decide)⟩⟩

/-- C7: the signed-query client derives its hash from the concatenation
ts + privateKey + publicKey, sends the public key as apikey and the
timestamp as ts, and two computations with the same md5 primitive and
inputs yield the same hash. -/
theorem c7_auth_params :
    ∀ (md5hex : String → String) (public_key private_key ts : String),
      (generate_auth_params md5hex public_key private_key ts).hash =
        md5hex (ts ++ private_key ++ public_key) ∧
      (generate_auth_params md5hex public_key private_key ts).apikey = public_key ∧
      (generate_auth_params md5hex public_key private_key ts).ts = ts ∧
      (generate_auth_params md5hex public_key private_key ts).hash =
        (generate_auth_params md5hex public_key private_key ts).hash := by
  intro md5hex public_key private_key ts
  exact ⟨rfl, rfl, rfl, rfl⟩

/-- A comic whose cover_date does not parse as a date. -/
def unknownDateComic : CV.Comic := ⟨none, none, none, none, some "unknown", none⟩

/-- An anime with no direct year and a parsable aired.from date. -/
def airedGoodAnime : JK.Anime := ⟨none, none, none, none, none, some ⟨some "1989-07-03"⟩⟩

/-- An anime with no direct year and an unparsable aired.from date. -/
def airedBadAnime : JK.Anime := ⟨none, none, none, none, none, some ⟨some "unknown"⟩⟩

/-- C8: year extraction yields 1989 for the date 1989-07-03 and an
absent year for the malformed string unknown, and a fetch whose item
carries the malformed date succeeds (no client error) with an absent
year — for both the comic client (cover_date) and the anime client
(aired.from). -/
theorem c8_year_extraction :
    yearFromDate (some "1989-07-03") = some 1989 ∧
    yearFromDate (some "unknown") = none ∧
    CV.get_random_comic (fun _ => .response 200 ⟨some "OK", [unknownDateComic]⟩) =
      ⟨.found none (some unknownDateComic), 1, []⟩ ∧
    JK.pickYear airedGoodAnime = some 1989 ∧
    JK.pickYear airedBadAnime = none := by
  refine ⟨by decide, by decide, ?_, by decide, by decide⟩
  decide

/-- A success-shaped Marvel envelope whose provider-reported status
field carries an error code, with no results. -/
def badEnvelope : MarvelBody := ⟨some "InvalidCredentials", []⟩

/-- C4 counterexample: the signed-query client (random_comic.py)
returns an HTTP-200 envelope whose status field carries an error code as
a successful (year, no item) outcome — it performs no envelope check, so
the claim does not hold for every Provider Client. -/
theorem c4_counterexample :
    Marvel.get_random_comic (fun _ => .response 200 badEnvelope) 1999 =
      ⟨.found (some 1999) none, 1, []⟩ := by
  decide

/-- C4 amended: the offset-sampled client (comic_client.py) converts a
success-shaped envelope whose error field is not the OK sentinel into a
raised failure on that same attempt, while the signed-query client
(random_comic.py) performs no envelope check and returns such a response
as success. -/
theorem c4_envelope_error_handling :
    (∀ (resps : Nat → Attempt CVBody) (status : Nat) (body : CVBody),
        resps 0 = .response status body → status < 400 → body.error ≠ some "OK" →
        CV.get_random_comic resps = ⟨.apiError "API returned error", 1, []⟩) ∧
    (∀ (resps : Nat → Attempt MarvelBody) (status : Nat) (body : MarvelBody) (ry : Int),
        resps 0 = .response status body → status < 400 →
        Marvel.get_random_comic resps ry = ⟨.found (some ry) body.results.head?, 1, []⟩) := by
  constructor
  · intro resps status body h0 hlt he
    have hge : ¬ 400 ≤ status := by omega
    show CV.go resps (1 + 2) 0 [] = _
    rw [cvGoStep2, h0]
    dsimp only
    unfold CV.handleResponse
    rw [if_neg hge, if_neg he]
    rfl
  · intro resps status body ry h0 hlt
    have hge : ¬ 400 ≤ status := by omega
    show Marvel.go resps ry (1 + 2) 0 [] = _
    rw [marvelGoStep2, h0]
    dsimp only
    rw [if_neg hge]
    rfl

/-- A success-shaped Comic Vine envelope whose error field is not OK. -/
def badCVEnvelope : CVBody := ⟨some "Invalid API Key", []⟩

/-- Witness for the amended C4 at concrete envelopes on both clients. -/
theorem c4_envelope_error_handling_witness :
    ((fun _ => Attempt.response 200 badCVEnvelope) 0 = .response 200 badCVEnvelope ∧
      200 < 400 ∧ badCVEnvelope.error ≠ some "OK" ∧
      CV.get_random_comic (fun _ => .response 200 badCVEnvelope) =
        ⟨.apiError "API returned error", 1, []⟩) ∧
    (Marvel.get_random_comic (fun _ => .response 200 badEnvelope) 2001 =
      ⟨.found (some 2001) none, 1, []⟩) :=
  ⟨⟨rfl, by decide, by decide,
      c4_envelope_error_handling.1 (fun _ => .response 200 badCVEnvelope) 200 badCVEnvelope
        rfl (by decide) (by decide)⟩,
    c4_envelope_error_handling.2 (fun _ => .response 200 badEnvelope) 200 badEnvelope 2001
      rfl (by decide)⟩

/-- The well-known Comic Vine placeholder image URL. -/
def placeholderUrl : String :=
  "https://comicvine.gamespot.com/a/uploads/image_not_available.png"

/-- A comic whose only image URL is the placeholder URL. -/
def placeholderComic : CV.Comic :=
  ⟨none, none, none, some ⟨some placeholderUrl, none, none⟩, none, none⟩

/-- C5 counterexample: a comic whose image URL contains the providers
known image_not_available marker is accepted by is_valid_comic — the
filter performs no placeholder-marker check. -/
theorem c5_counterexample :
    placeholderUrl =
      "https://comicvine.gamespot.com/a/uploads/" ++ "image_not_available" ++ ".png" ∧
    is_valid_comic (some placeholderComic) = true := by
  exact ⟨rfl, by decide⟩

/-- C5 amended: the filters return false for a missing item or a
missing image container, and acceptance depends only on some candidate
URL being a truthy string — no placeholder-marker check is performed. -/
theorem c5_validity_filter :
    is_valid_comic none = false ∧
    (∀ c : CV.Comic, c.image = none → is_valid_comic (some c) = false) ∧
    is_valid_anime none = false ∧
    (∀ a : JK.Anime, a.images = none → is_valid_anime (some a) = false) ∧
    (∀ c : CV.Comic, is_valid_comic (some c) = true →
      ∃ img, c.image = some img ∧
        (strTruthy img.medium_url = true ∨ strTruthy img.small_url = true ∨
          strTruthy img.original_url = true)) := by
  refine ⟨rfl, ?_, rfl, ?_, ?_⟩
  · intro c h
    simp [is_valid_comic, h]
  · intro a h
    simp [is_valid_anime, h]
  · intro c hv
    cases himg : c.image with
    | none => simp [is_valid_comic, himg] at hv
    | some img =>
      simp only [is_valid_comic, himg, Bool.or_eq_true] at hv
      exact ⟨img, rfl, by tauto⟩

/-- A truthy comic record with a falsy image value. -/
def noImageComic : CV.Comic := ⟨some "X", none, none, none, none, none⟩

/-- A truthy anime record with a falsy images value. -/
def noImagesAnime : JK.Anime := ⟨some "X", none, none, none, none, none⟩

/-- Witness for the amended C5 at concrete records. -/
theorem c5_validity_filter_witness :
    (noImageComic.image = none ∧ is_valid_comic (some noImageComic) = false) ∧
    (noImagesAnime.images = none ∧ is_valid_anime (some noImagesAnime) = false) ∧
    (is_valid_comic (some smallUrlComic) = true ∧
      ∃ img, smallUrlComic.image = some img ∧
        (strTruthy img.medium_url = true ∨ strTruthy img.small_url = true ∨
          strTruthy img.original_url = true)) :=
  ⟨⟨rfl, c5_validity_filter.2.1 noImageComic rfl⟩,
   ⟨rfl, c5_validity_filter.2.2.2.1 noImagesAnime rfl⟩,
   ⟨by decide, c5_validity_filter.2.2.2.2 smallUrlComic (by decide)⟩⟩

/-- A comic whose cover_date has a three-digit leading segment. -/
def threeDigitComic : CV.Comic :=
  ⟨none, none, none, some ⟨some "http://x/a.jpg", none, none⟩, some "123-04-05", none⟩

/-- C6 counterexample: the offset-sampled client returns a fetch
outcome carrying year 123 — present but not a four-digit calendar
year — because year extraction performs no digit-count or range
validation. -/
theorem c6_counterexample :
    CV.get_random_comic (fun _ => .response 200 ⟨some "OK", [threeDigitComic]⟩) =
      ⟨.found (some 123) (some threeDigitComic), 1, []⟩ ∧
    ¬(1000 ≤ (123 : Int)) := by
  exact ⟨by decide, by decide⟩

/-- Every found outcome of the Marvel retry loop carries the year drawn
before the loop. -/
theorem marvelGo_found_year (resps : Nat → Attempt MarvelBody) (ry : Int) :
    ∀ (fuel made : Nat) (sleeps : List Nat) (y : Option Int) (oc : Option Marvel.Comic),
      (Marvel.go resps ry fuel made sleeps).result = .found y oc → y = some ry := by
  intro fuel
  induction fuel with
  | zero =>
    intro made sleeps y oc h
    simp [Marvel.go] at h
  | succ n ih =>
    intro made sleeps y oc h
    cases n with
    | zero =>
      rw [marvelGoStep1] at h
      cases hr : resps made with
      | response status body =>
        rw [hr] at h
        dsimp only at h
        split at h
        · simp at h
        · simp only [FetchResult.found.injEq] at h
          exact h.1.symm
      | timeout =>
        rw [hr] at h
        simp at h
      | netError =>
        rw [hr] at h
        simp at h
    | succ m =>
      rw [show m + 1 + 1 = m + 2 from rfl, marvelGoStep2] at h
      cases hr : resps made with
      | response status body =>
        rw [hr] at h
        dsimp only at h
        split at h
        · simp at h
        · simp only [FetchResult.found.injEq] at h
          exact h.1.symm
      | timeout =>
        rw [hr] at h
        exact ih _ _ _ _ h
      | netError =>
        rw [hr] at h
        exact ih _ _ _ _ h

/-- C6 amended: the signed-query provider draws its year uniformly from
the stated range 1960..2023, so any year it reports is a four-digit year
in range; the offset- and endpoint-sampled providers parse the year from
the leading segment of a date string with no digit-count or range
validation. -/
theorem c6_year_ranges :
    (∀ (resps : Nat → Attempt MarvelBody) (ry : Int) (y : Option Int)
        (oc : Option Marvel.Comic),
        1960 ≤ ry → ry ≤ 2023 →
        (Marvel.get_random_comic resps ry).result = .found y oc →
        y = some ry ∧ 1000 ≤ ry ∧ ry ≤ 9999) ∧
    yearFromDate (some "123-04-05") = some 123 ∧
    yearFromDate (some "99999-01-01") = some 99999 := by
  refine ⟨?_, by decide, by decide⟩
  intro resps ry y oc h1 h2 hf
  refine ⟨marvelGo_found_year resps ry _ _ _ _ _ hf, by omega, by omega⟩

/-- Witness for the amended C6 at a concrete successful Marvel fetch. -/
theorem c6_year_ranges_witness :
    ((1960 : Int) ≤ 1999 ∧ (1999 : Int) ≤ 2023 ∧
      (Marvel.get_random_comic (fun _ => .response 200 ⟨some "Ok", []⟩) 1999).result =
        .found (some 1999) none ∧
      (some (1999 : Int) = some 1999 ∧ (1000 : Int) ≤ 1999 ∧ (1999 : Int) ≤ 9999)) :=
  ⟨by decide, by decide, by decide,
    c6_year_ranges.1 (fun _ => .response 200 ⟨some "Ok", []⟩) 1999 (some 1999) none
      (by decide) (by decide) (by decide)⟩

/-- A valid comic whose volume dictionary carries an explicitly empty
name, with empty name and issue_number fields. -/
def emptyTitleComic : CV.Comic :=
  ⟨some "", some "", some ⟨some ""⟩, some ⟨some "http://x/a.jpg", none, none⟩, none, none⟩

/-- C10 counterexample: a comic whose truthy volume has an empty name
and whose name and issue_number are empty normalizes to an empty title —
the Unknown Series fallback does not apply, because the volume is truthy
and carries the name key. -/
theorem c10_counterexample :
    is_valid_comic (some emptyTitleComic) = true ∧
    (format_comic_response emptyTitleComic none).comic.title = "" := by
  exact ⟨by decide, by decide⟩

/-- C10 amended: the anime normalizer always produces a non-empty title
(falling back to Unknown Anime), and the comic normalizer produces a
non-empty title whenever the volume is absent or its name is not the
empty string (falling back to Unknown Series when the volume or its name
key is missing); only an explicitly empty volume name can make the title
empty. -/
theorem c10_title_nonempty :
    (∀ (a : JK.Anime) (y : Option Int), (format_anime_response a y).comic.title ≠ "") ∧
    (∀ (c : CV.Comic) (y : Option Int),
      (∀ v, c.volume = some v → v.name ≠ some "") →
      (format_comic_response c y).comic.title ≠ "") := by
  constructor
  · intro a y hc
    have ht : (format_anime_response a y).comic.title = animeTitle a := rfl
    rw [ht] at hc
    unfold animeTitle at hc
    rw [pyStrOr_eq_empty_iff] at hc
    obtain ⟨-, h2⟩ := hc
    rw [pyStrOr_eq_empty_iff] at h2
    exact absurd h2.2 (by decide)
  · intro c y hvol
    have hvn : volumeName c.volume ≠ "" := by
      cases hv : c.volume with
      | none => simp [volumeName]
      | some v =>
        cases hn : v.name with
        | none => simp [volumeName, hn]
        | some s =>
          simp only [volumeName, hn, Option.getD_some]
          intro hs
          subst hs
          exact hvol v hv hn
    have ht : (format_comic_response c y).comic.title = comicTitle c := rfl
    rw [ht]
    unfold comicTitle
    split
    · split
      · exact append_ne_empty_left _ _ (append_ne_empty_left _ _
          (append_ne_empty_left _ _ (append_ne_empty_left _ _ hvn)))
      · exact append_ne_empty_left _ _ (append_ne_empty_left _ _ hvn)
    · split
      · exact append_ne_empty_left _ _ (append_ne_empty_left _ _ hvn)
      · exact hvn

/-- A truthy anime with no title fields. -/
def noTitleAnime : JK.Anime := ⟨none, none, none, some "http://mal/x", none, none⟩

/-- A comic with a falsy volume and no name or issue fields. -/
def noVolumeComic : CV.Comic := ⟨none, none, none, none, none, none⟩

/-- Witness for the amended C10 at concrete records. -/
theorem c10_title_nonempty_witness :
    (format_anime_response noTitleAnime none).comic.title ≠ "" ∧
    ((∀ v, noVolumeComic.volume = some v → v.name ≠ some "") ∧
      (format_comic_response noVolumeComic none).comic.title ≠ "") :=
  ⟨c10_title_nonempty.1 noTitleAnime none,
   ⟨fun v h => by simp [noVolumeComic] at h,
    c10_title_nonempty.2 noVolumeComic none (fun v h => by simp [noVolumeComic] at h)⟩⟩

/-- A client call result that succeeded but whose item fails the comic
validity filter (this includes the no-item case). -/
def invalidComicSample : FetchResult CV.Comic → Prop
  | .found _ oc => is_valid_comic oc = false
  | .apiError _ => False

/-- A client call result that succeeded but whose item fails the anime
validity filter (this includes the no-item case). -/
def invalidAnimeSample : FetchResult JK.Anime → Prop
  | .found _ oa => is_valid_anime oa = false
  | .apiError _ => False

/-- One-step unfolding of the comic sampling loop. -/
theorem randomComicGo_step (fetches : Nat → FetchResult CV.Comic) (fuel made : Nat) :
    randomComicGo fetches (fuel + 1) made =
      match fetches made with
      | .apiError _ => ⟨.serverError, made + 1⟩
      | .found y (some c) =>
        if is_valid_comic (some c) then ⟨.ok (format_comic_response c y), made + 1⟩
        else randomComicGo fetches fuel (made + 1)
      | .found _ none => randomComicGo fetches fuel (made + 1) := rfl

/-- One-step unfolding of the anime sampling loop. -/
theorem randomAnimeGo_step (fetches : Nat → FetchResult JK.Anime) (fuel made : Nat) :
    randomAnimeGo fetches (fuel + 1) made =
      match fetches made with
      | .apiError _ => ⟨.serverError, made + 1⟩
      | .found y (some a) =>
        if is_valid_anime (some a) then ⟨.ok (format_anime_response a y), made + 1⟩
        else randomAnimeGo fetches fuel (made + 1)
      | .found _ none => randomAnimeGo fetches fuel (made + 1) := rfl

/-- The comic sampling loop never makes more calls than its fuel plus
the calls already made. -/
theorem randomComicGo_calls_le (fetches : Nat → FetchResult CV.Comic) :
    ∀ (fuel made : Nat), (randomComicGo fetches fuel made).calls ≤ made + fuel := by
  intro fuel
  induction fuel with
  | zero => intro made; simp [randomComicGo]
  | succ n ih =>
    intro made
    rw [randomComicGo_step]
    cases hf : fetches made with
    | apiError m => dsimp only; omega
    | found y oc =>
      cases oc with
      | some c =>
        dsimp only
        split
        · dsimp only; omega
        · have := ih (made + 1)
          omega
      | none =>
        dsimp only
        have := ih (made + 1)
        omega

/-- The anime sampling loop never makes more calls than its fuel plus
the calls already made. -/
theorem randomAnimeGo_calls_le (fetches : Nat → FetchResult JK.Anime) :
    ∀ (fuel made : Nat), (randomAnimeGo fetches fuel made).calls ≤ made + fuel := by
  intro fuel
  induction fuel with
  | zero => intro made; simp [randomAnimeGo]
  | succ n ih =>
    intro made
    rw [randomAnimeGo_step]
    cases hf : fetches made with
    | apiError m => dsimp only; omega
    | found y oa =>
      cases oa with
      | some a =>
        dsimp only
        split
        · dsimp only; omega
        · have := ih (made + 1)
          omega
      | none =>
        dsimp only
        have := ih (made + 1)
        omega

/-- When every remaining sample succeeds with an invalid item, the comic
sampling loop consumes all its fuel and returns the not-found
outcome. -/
theorem randomComicGo_all_invalid (fetches : Nat → FetchResult CV.Comic) :
    ∀ (fuel made : Nat), (∀ i, i < made + fuel → invalidComicSample (fetches i)) →
      randomComicGo fetches fuel made = ⟨.notFound, made + fuel⟩ := by
  intro fuel
  induction fuel with
  | zero => intro made h; simp [randomComicGo]
  | succ n ih =>
    intro made h
    have hm := h made (by omega)
    rw [randomComicGo_step]
    cases hf : fetches made with
    | apiError m =>
      rw [hf] at hm
      exact absurd hm (by simp [invalidComicSample])
    | found y oc =>
      rw [hf] at hm
      cases oc with
      | some c =>
        have hm2 : is_valid_comic (some c) = false := hm
        dsimp only
        rw [if_neg (by simp [hm2])]
        rw [ih (made + 1) (fun i hi => h i (by omega))]
        exact congrArg _ (by omega)
      | none =>
        dsimp only
        rw [ih (made + 1) (fun i hi => h i (by omega))]
        exact congrArg _ (by omega)

/-- When every remaining sample succeeds with an invalid item, the anime
sampling loop consumes all its fuel and returns the not-found
outcome. -/
theorem randomAnimeGo_all_invalid (fetches : Nat → FetchResult JK.Anime) :
    ∀ (fuel made : Nat), (∀ i, i < made + fuel → invalidAnimeSample (fetches i)) →
      randomAnimeGo fetches fuel made = ⟨.notFound, made + fuel⟩ := by
  intro fuel
  induction fuel with
  | zero => intro made h; simp [randomAnimeGo]
  | succ n ih =>
    intro made h
    have hm := h made (by omega)
    rw [randomAnimeGo_step]
    cases hf : fetches made with
    | apiError m =>
      rw [hf] at hm
      exact absurd hm (by simp [invalidAnimeSample])
    | found y oa =>
      rw [hf] at hm
      cases oa with
      | some a =>
        have hm2 : is_valid_anime (some a) = false := hm
        dsimp only
        rw [if_neg (by simp [hm2])]
        rw [ih (made + 1) (fun i hi => h i (by omega))]
        exact congrArg _ (by omega)
      | none =>
        dsimp only
        rw [ih (made + 1) (fun i hi => h i (by omega))]
        exact congrArg _ (by omega)

/-- C2: both handlers make at most MAX_RETRY_ATTEMPTS client calls, and
when every sampled item fails the validity filter they make exactly
MAX_RETRY_ATTEMPTS calls and return the 404 not-found outcome. -/
theorem c2_bounded_sampling :
    (∀ fetches : Nat → FetchResult CV.Comic,
      (random_comic fetches).calls ≤ MAX_RETRY_ATTEMPTS) ∧
    (∀ fetches : Nat → FetchResult JK.Anime,
      (random_anime fetches).calls ≤ MAX_RETRY_ATTEMPTS) ∧
    (∀ fetches : Nat → FetchResult CV.Comic,
      (∀ i, i < MAX_RETRY_ATTEMPTS → invalidComicSample (fetches i)) →
      random_comic fetches = ⟨.notFound, MAX_RETRY_ATTEMPTS⟩) ∧
    (∀ fetches : Nat → FetchResult JK.Anime,
      (∀ i, i < MAX_RETRY_ATTEMPTS → invalidAnimeSample (fetches i)) →
      random_anime fetches = ⟨.notFound, MAX_RETRY_ATTEMPTS⟩) := by
  refine ⟨?_, ?_, ?_, ?_⟩
  · intro fetches
    exact randomComicGo_calls_le fetches MAX_RETRY_ATTEMPTS 0
  · intro fetches
    exact randomAnimeGo_calls_le fetches MAX_RETRY_ATTEMPTS 0
  · intro fetches h
    exact randomComicGo_all_invalid fetches MAX_RETRY_ATTEMPTS 0 h
  · intro fetches h
    exact randomAnimeGo_all_invalid fetches MAX_RETRY_ATTEMPTS 0 h

/-- Witness for C2: with every sample returning no item (which the
filter rejects), both handlers make exactly 10 calls and answer 404. -/
theorem c2_bounded_sampling_witness :
    ((∀ i, i < MAX_RETRY_ATTEMPTS →
        invalidComicSample ((fun _ => FetchResult.found none none) i)) ∧
      random_comic (fun _ => FetchResult.found none none) = ⟨.notFound, MAX_RETRY_ATTEMPTS⟩) ∧
    ((∀ i, i < MAX_RETRY_ATTEMPTS →
        invalidAnimeSample ((fun _ => FetchResult.found none none) i)) ∧
      random_anime (fun _ => FetchResult.found none none) = ⟨.notFound, MAX_RETRY_ATTEMPTS⟩) :=
  ⟨⟨fun _ _ => rfl, c2_bounded_sampling.2.2.1 (fun _ => FetchResult.found none none)
      (fun _ _ => rfl)⟩,
   ⟨fun _ _ => rfl, c2_bounded_sampling.2.2.2 (fun _ => FetchResult.found none none)
      (fun _ _ => rfl)⟩⟩

/-- When the first k samples are invalid and sample k raises, the comic
sampling loop stops at sample k with the 500 outcome. -/
theorem randomComicGo_error_at (fetches : Nat → FetchResult CV.Comic) :
    ∀ (k fuel made : Nat) (m : String), k < fuel →
      (∀ i, i < k → invalidComicSample (fetches (made + i))) →
      fetches (made + k) = .apiError m →
      randomComicGo fetches fuel made = ⟨.serverError, made + (k + 1)⟩ := by
  intro k
  induction k with
  | zero =>
    intro fuel made m hk hinv herr
    cases fuel with
    | zero => omega
    | succ n =>
      rw [randomComicGo_step]
      rw [show made + 0 = made from rfl] at herr
      rw [herr]
  | succ k ih =>
    intro fuel made m hk hinv herr
    cases fuel with
    | zero => omega
    | succ n =>
      have hm := hinv 0 (by omega)
      rw [show made + 0 = made from rfl] at hm
      rw [randomComicGo_step]
      cases hf : fetches made with
      | apiError s =>
        rw [hf] at hm
        exact absurd hm (by simp [invalidComicSample])
      | found y oc =>
        rw [hf] at hm
        have hrec :
            randomComicGo fetches n (made + 1) = ⟨.serverError, made + 1 + (k + 1)⟩ := by
          refine ih n (made + 1) m (by omega) ?_ ?_
          · intro i hi
            have := hinv (i + 1) (by omega)
            rw [show made + (i + 1) = made + 1 + i from by omega] at this
            exact this
          · rw [show made + 1 + k = made + (k + 1) from by omega]
            exact herr
        cases oc with
        | some c =>
          have hm2 : is_valid_comic (some c) = false := hm
          dsimp only
          rw [if_neg (by simp [hm2]), hrec]
          exact congrArg _ (by omega)
        | none =>
          dsimp only
          rw [hrec]
          exact congrArg _ (by omega)

/-- C3: when the comic client exhausts its own transport budget (three
timeouts) it raises, and a raised client error at any sample aborts the
handler loop on that sample — the handler makes no further client calls
and returns the 500 failure outcome. -/
theorem c3_transport_failure_aborts :
    (∀ resps : Nat → Attempt CVBody, (∀ i, resps i = .timeout) →
      CV.get_random_comic resps =
        ⟨.apiError "Request timed out after multiple attempts", 3,
          [CV.RETRY_DELAY, CV.RETRY_DELAY]⟩) ∧
    (∀ (fetches : Nat → FetchResult CV.Comic) (k : Nat) (m : String),
      k < MAX_RETRY_ATTEMPTS →
      (∀ i, i < k → invalidComicSample (fetches i)) →
      fetches k = .apiError m →
      random_comic fetches = ⟨.serverError, k + 1⟩) := by
  constructor
  · intro resps h
    show CV.go resps (1 + 2) 0 [] = _
    rw [cvGoStep2, h 0]
    dsimp only
    rw [show (1 : Nat) + 1 = 0 + 2 from rfl, cvGoStep2, h 1]
    dsimp only
    rw [show (0 : Nat) + 1 + 1 = 2 from rfl, cvGoStep1, h 2]
    rfl
  · intro fetches k m hk hinv herr
    have := randomComicGo_error_at fetches k MAX_RETRY_ATTEMPTS 0 m hk
      (fun i hi => by simpa using hinv i hi) (by simpa using herr)
    simpa using this

/-- A sequence of client call results whose first sample has no item and
whose later samples raise. -/
def c3Fetches : Nat → FetchResult CV.Comic :=
  fun i => if i = 0 then .found none none else .apiError "boom"

/-- Witness for C3: all-timeout transport attempts make the client
raise, and a handler whose first sample is invalid and whose second
raises stops after two calls with the 500 outcome. -/
theorem c3_transport_failure_aborts_witness :
    (CV.get_random_comic (fun _ => Attempt.timeout) =
      ⟨.apiError "Request timed out after multiple attempts", 3,
        [CV.RETRY_DELAY, CV.RETRY_DELAY]⟩) ∧
    ((1 : Nat) < MAX_RETRY_ATTEMPTS ∧
      c3Fetches 1 = FetchResult.apiError "boom" ∧
      random_comic c3Fetches = ⟨.serverError, 2⟩) :=
  ⟨c3_transport_failure_aborts.1 (fun _ => Attempt.timeout) (fun _ => rfl),
   ⟨by decide, rfl,
    c3_transport_failure_aborts.2 c3Fetches 1 "boom" (by decide)
      (fun i hi => by
        have h0 : i = 0 := by omega
        subst h0
        exact rfl)
      rfl⟩⟩

/-- The sleeps component of the Jikan success handler is always the
accumulated list. -/
theorem JK.handleSuccess_sleeps (body : JikanBody) (made : Nat) (sleeps : List Nat) :
    (JK.handleSuccess body made sleeps).sleeps = sleeps.reverse := by
  unfold JK.handleSuccess
  cases body.data <;> rfl

/-- C9: two HTTP 429 responses from the endpoint-sampled provider are
each retried after a sleep of RETRY_DELAY * 2 (whatever the third
attempt yields), while an HTTP 420 from the offset-sampled provider is
raised on the attempt that observes it, with one attempt made and no
sleeps. -/
theorem c9_rate_limit_handling :
    (∀ (resps : Nat → Attempt JikanBody) (b0 b1 : JikanBody),
      resps 0 = .response 429 b0 → resps 1 = .response 429 b1 →
      (JK.get_random_anime resps).sleeps = [JK.RETRY_DELAY * 2, JK.RETRY_DELAY * 2]) ∧
    (∀ (resps : Nat → Attempt CVBody) (b : CVBody),
      resps 0 = .response 420 b →
      CV.get_random_comic resps =
        ⟨.apiError "Rate limit exceeded. Please wait before making more requests.",
          1, []⟩) := by
  constructor
  · intro resps b0 b1 h0 h1
    show (JK.go resps (1 + 2) 0 []).sleeps = _
    rw [jkGoStep2, h0]
    dsimp only
    rw [if_pos (by omega), if_pos rfl]
    rw [show (1 : Nat) + 1 = 0 + 2 from rfl, jkGoStep2, h1]
    dsimp only
    rw [if_pos (by omega), if_pos rfl]
    rw [show (0 : Nat) + 1 + 1 = 2 from rfl, jkGoStep1]
    cases hr2 : resps 2 with
    | timeout => rfl
    | netError => rfl
    | response status body =>
      dsimp only
      split
      · split
        · rfl
        · rfl
      · rw [JK.handleSuccess_sleeps]
        rfl
  · intro resps b h0
    show CV.go resps (1 + 2) 0 [] = _
    rw [cvGoStep2, h0]
    dsimp only
    unfold CV.handleResponse
    rw [if_pos (by omega), if_pos rfl]
    rfl

/-- Witness for C9: an all-429 Jikan run sleeps twice for
RETRY_DELAY * 2, and a first-attempt 420 Comic Vine run fails with one
attempt and no sleeps. -/
theorem c9_rate_limit_handling_witness :
    ((JK.get_random_anime (fun _ => Attempt.response 429 ⟨none⟩)).sleeps =
      [JK.RETRY_DELAY * 2, JK.RETRY_DELAY * 2]) ∧
    (CV.get_random_comic (fun _ => Attempt.response 420 ⟨none, []⟩) =
      ⟨.apiError "Rate limit exceeded. Please wait before making more requests.",
        1, []⟩) :=
  ⟨c9_rate_limit_handling.1 (fun _ => Attempt.response 429 ⟨none⟩) ⟨none⟩ ⟨none⟩ rfl rfl,
   c9_rate_limit_handling.2 (fun _ => Attempt.response 420 ⟨none, []⟩) ⟨none, []⟩ rfl⟩

end CoverGen
